import Mathlib

/-!
Verification development for the course-telegram-bot repository.

This file gives a shallow embedding, in Lean 4, of the bot session protocol
and order-verification gate of the repository:

* `src/utils/validation.ts` — `sanitizeString`, `isValidEmail`, `isValidOrderId`
* `src/server/services/woocommerce.ts` — `isOrderPaid`, `getOrderEmail`,
  `verifyOrderPayment`
* `src/server/services/telegramBot.ts` (the version exporting
  `bootstrapTelegramBot` / `getBot`, i.e. `src/unnamed/part_006`) — the
  `/start`, `/courses`, free-text-message and callback-query handlers, the
  per-chat session map, and the bot-connection lifecycle
  (`initTelegramBot` / `bootstrapTelegramBot` with the `isInitializing` guard)
* `src/server/middlewares/rateLimiter.ts` — the Telegram-path token bucket

External calls (database reads/writes, the WooCommerce HTTP request) are
passed in as explicit environment values, with `Except Unit` modelling a
thrown exception and `Option` modelling a null/undefined result, so every
handler is a pure, executable function of its inputs.
-/

/-! ## Model of the JavaScript string primitives used by the handlers -/

/-- Model of JavaScript `String.prototype.trim`: drop whitespace from both
ends of the string. -/
def jsTrim (s : String) : String :=
  String.mk (((s.data.dropWhile Char.isWhitespace).reverse.dropWhile
    Char.isWhitespace).reverse)

/-- Model of JavaScript `String.prototype.toLowerCase`, restricted to the
per-character lowercasing relevant to emails. -/
def jsToLower (s : String) : String :=
  String.mk (s.data.map Char.toLower)

/-- Model of JavaScript `String.prototype.startsWith`. -/
def jsStartsWith (s pre : String) : Bool :=
  pre.data.isPrefixOf s.data

/-! ## `src/utils/validation.ts` -/

/-- Character-level form of the two global replacements in `sanitizeString`:
`.replace(/'/g, "''")` followed by `.replace(/\\/g, '\\\\')`.  The two
patterns are single characters and the replacement texts never contain the
other pattern, so the sequential global replacements coincide with this
single pass. -/
def escapeChars : List Char → List Char
  | [] => []
  | c :: cs =>
    if c = '\x27' then '\x27' :: '\x27' :: escapeChars cs
    else if c = '\\' then '\\' :: '\\' :: escapeChars cs
    else c :: escapeChars cs

/-- `sanitizeString` from `src/utils/validation.ts`: empty input maps to the
empty string; otherwise escape single quotes and backslashes, then trim. -/
def sanitizeString (input : String) : String :=
  if input = "" then ""
  else jsTrim (String.mk (escapeChars input.data))

/-- Helper for `isValidEmail`: the domain part (the text after the `@`)
contains a dot with at least one character before it and at least one
character after it, as required by the `[^\s@]+\.[^\s@]+$` tail of the
regex. -/
def hasInnerDot (domain : List Char) : Bool :=
  (List.range domain.length).any (fun i =>
    domain.getD i '@' = '.' && decide (1 ≤ i) && decide (i + 2 ≤ domain.length))

/-- `isValidEmail` from `src/utils/validation.ts`, testing the regex
`^[^\s@]+@[^\s@]+\.[^\s@]+$`.  A string matches that regex exactly when it
contains no whitespace, exactly one `@` which is neither first nor last, and
the part after the `@` has a dot that is neither its first nor its last
character. -/
def isValidEmail (email : String) : Bool :=
  let l := email.data
  (l.countP (fun c => c = '@') = 1 : Bool) &&
  l.all (fun c => !c.isWhitespace) &&
  (let i := l.findIdx (fun c => c = '@')
   !(l.take i).isEmpty && !(l.drop (i + 1)).isEmpty && hasInnerDot (l.drop (i + 1)))

/-- `isValidOrderId` from `src/utils/validation.ts`, testing `^\d+$`. -/
def isValidOrderId (id : String) : Bool :=
  !id.data.isEmpty && id.data.all Char.isDigit

/-! ## `src/server/services/woocommerce.ts` -/

/-- The fields of the WooCommerce order payload that the verification
functions consult: `status` and `billing.email`. -/
structure OrderData where
  status : String
  billingEmail : String
deriving DecidableEq, Repr

/-- `isOrderPaid`: the order status is `'completed'` or `'processing'`. -/
def isOrderPaid (order : OrderData) : Bool :=
  ["completed", "processing"].contains order.status

/-- `getOrderEmail`: the billing email on the order. -/
def getOrderEmail (order : OrderData) : String :=
  order.billingEmail

/-- `verifyOrderPayment(orderId, email)`.  The result of the network lookup
`getOrderById` is passed in as `lookup`: `.error ()` models the lookup
throwing (network/parse failure), `.ok none` models order-not-found (the
source's `getOrderById` also catches its own errors and returns `null`), and
`.ok (some order)` a fetched order.  Mirrors the source exactly: the
`!orderId || !email` guard (JavaScript falsiness of the empty string), the
lowercased email comparison, the paid-status check, and the enclosing
`try/catch` that turns any throw into `false`. -/
def verifyOrderPayment (lookup : Except Unit (Option OrderData))
    (orderId email : String) : Bool :=
  if orderId = "" ∨ email = "" then false
  else
    match lookup with
    | .error _ => false
    | .ok none => false
    | .ok (some order) =>
      if jsToLower (getOrderEmail order) ≠ jsToLower email then false
      else if !isOrderPaid order then false
      else true

/-! ## Conversation Engine — `src/server/services/telegramBot.ts` (part_006)

The per-chat session map `userStates : Map<number, UserState>` stores a step
(`'START' | 'EMAIL' | 'ORDER_ID'`) and an optional email.  Each handler below
is the pure content of the corresponding event handler registered in
`registerBotHandlers`; the results of the awaited external calls are supplied
through a `BotEnv`. -/

/-- The `step` field of the TypeScript `UserState` interface. -/
inductive Step
  | START
  | EMAIL
  | ORDER_ID
deriving DecidableEq, Repr

/-- The TypeScript `UserState` interface (per-chat session entry). -/
structure UserState where
  step : Step
  email : Option String
deriving DecidableEq, Repr

/-- The fields of a stored user record consulted by the handlers. -/
structure UserRec where
  id : Nat
  telegramId : String
  email : String
  isVerified : Bool
  isBanned : Bool
deriving DecidableEq, Repr

/-- Result of an awaited storage call: `.error ()` models the promise
rejecting (a thrown storage exception, handled by the handler's `catch`). -/
abbrev DbResult (α : Type) := Except Unit α

/-- Course record fields consulted by the callback-query handler. -/
structure Course where
  id : Nat
  title : String
deriving DecidableEq, Repr

/-- Course subcontent fields consulted by the callback-query handler. -/
structure Subcontent where
  id : Nat
  courseId : Nat
deriving DecidableEq, Repr

/-- Environment of one event: the values produced by the external calls the
handler may perform (storage reads/writes and the order-verification call).
`verifyOrder` is the boolean result of `verifyOrderPayment`, which never
throws (its `catch` returns `false`). -/
structure BotEnv where
  getUserByEmail : String → DbResult (Option UserRec)
  getUserByTelegramId : DbResult (Option UserRec)
  verifyOrder : String → String → Bool
  updateUser : Nat → DbResult (Option UserRec)
  createUser : DbResult UserRec
  getCourse : Nat → Option Course
  getCourseSubcontent : Nat → Option Subcontent

/-- What the free-text message handler did, in the order the source can
reach the branches. `verifiedSuccess persisted` is the path that clears the
session and reports "Verification successful"; `persisted` records whether
the storage write actually persisted a row (`updateUser` returned a user, or
`createUser` returned). -/
inductive Outcome
  | ignored
  | rateLimited
  | noSession
  | invalidEmail
  | duplicateEmail
  | emailAccepted
  | invalidOrderId
  | verifyRejected
  | verifiedSuccess (persisted : Bool)
  | caughtError
  | noAction
deriving DecidableEq, Repr

/-- Session entry for the chat after the event, plus what happened. -/
structure MsgOut where
  sess : Option UserState
  outcome : Outcome
deriving DecidableEq, Repr

/-- The `bot.on('message')` handler of part_006 (lines 252–370), for the
chat identity `telegramId`, as a function of the pre-event session entry
`sess` of that chat.  `allowed` is the result of the `telegramRateLimit`
call.  Faithful points: the `'/'`-command and missing-text early return
happens before rate limiting; `state.email` is additionally tested for
JavaScript truthiness (`&& state.email`), so an empty stored email falls
through; after a confirmed payment the session is cleared and success
reported regardless of whether `updateUser` persisted a row (the source only
logs an error in that case). -/
def handleMessage (env : BotEnv) (telegramId : String) (msgText : Option String)
    (allowed : Bool) (sess : Option UserState) : MsgOut :=
  match msgText with
  | none => ⟨sess, .ignored⟩
  | some raw =>
    if jsStartsWith raw "/" then ⟨sess, .ignored⟩
    else
      let text := jsTrim raw
      if !allowed then ⟨sess, .rateLimited⟩
      else
        match sess with
        | none => ⟨none, .noSession⟩
        | some state =>
          match state.step with
          | .EMAIL =>
            let sanitizedEmail := sanitizeString text
            if !isValidEmail sanitizedEmail then ⟨sess, .invalidEmail⟩
            else
              match env.getUserByEmail sanitizedEmail with
              | .error _ => ⟨sess, .caughtError⟩
              | .ok (some existingUser) =>
                if existingUser.telegramId ≠ telegramId then ⟨sess, .duplicateEmail⟩
                else ⟨some ⟨.ORDER_ID, some sanitizedEmail⟩, .emailAccepted⟩
              | .ok none => ⟨some ⟨.ORDER_ID, some sanitizedEmail⟩, .emailAccepted⟩
          | .ORDER_ID =>
            match state.email with
            | none => ⟨sess, .noAction⟩
            | some email =>
              if email = "" then ⟨sess, .noAction⟩
              else
                let sanitizedOrderId := sanitizeString text
                if !isValidOrderId sanitizedOrderId then ⟨sess, .invalidOrderId⟩
                else if !env.verifyOrder sanitizedOrderId email then ⟨sess, .verifyRejected⟩
                else
                  match env.getUserByTelegramId with
                  | .error _ => ⟨sess, .caughtError⟩
                  | .ok (some user) =>
                    match env.updateUser user.id with
                    | .error _ => ⟨sess, .caughtError⟩
                    | .ok updated => ⟨none, .verifiedSuccess updated.isSome⟩
                  | .ok none =>
                    match env.createUser with
                    | .error _ => ⟨sess, .caughtError⟩
                    | .ok _ => ⟨none, .verifiedSuccess true⟩
          | .START => ⟨sess, .noAction⟩

/-- What the `/start` handler did. -/
inductive StartOutcome
  | rateLimited
  | banned
  | alreadyVerified
  | resumeOrderId
  | newUser
  | caughtError
deriving DecidableEq, Repr

/-- Session entry for the chat after `/start`, plus what happened. -/
structure StartOut where
  sess : Option UserState
  outcome : StartOutcome
deriving DecidableEq, Repr

/-- The `bot.onText(/\/start/)` handler of part_006 (lines 164–213):
rate-limit, then branch on the stored user record for this chat identity.
Banned and already-verified users get a terminal message with no session
write; an unverified record jumps to `ORDER_ID` with the stored email; no
record enters `EMAIL`. -/
def handleStart (getUserByTelegramId : DbResult (Option UserRec))
    (allowed : Bool) (sess : Option UserState) : StartOut :=
  if !allowed then ⟨sess, .rateLimited⟩
  else
    match getUserByTelegramId with
    | .error _ => ⟨sess, .caughtError⟩
    | .ok (some existingUser) =>
      if existingUser.isBanned then ⟨sess, .banned⟩
      else if existingUser.isVerified then ⟨sess, .alreadyVerified⟩
      else ⟨some ⟨.ORDER_ID, some existingUser.email⟩, .resumeOrderId⟩
    | .ok none => ⟨some ⟨.EMAIL, none⟩, .newUser⟩

/-- What the `/courses` handler did. -/
inductive CoursesOutcome
  | promptStart
  | banned
  | notVerified
  | menuSent
  | caughtError
deriving DecidableEq, Repr

/-- The `bot.onText(/\/courses/)` handler of part_006 (lines 222–249).
Note: this handler performs no rate-limit call in the source. -/
def handleCourses (getUserByTelegramId : DbResult (Option UserRec)) : CoursesOutcome :=
  match getUserByTelegramId with
  | .error _ => .caughtError
  | .ok none => .promptStart
  | .ok (some user) =>
    if user.isBanned then .banned
    else if !user.isVerified then .notVerified
    else .menuSent

/-- Model of JavaScript `parseInt(s, 10)`: parse the longest numeric prefix;
`none` models `NaN` (no leading digit).  The callback data is produced by the
menu builder (`course_<id>` / `subcontent_<id>`), so sign and whitespace
handling of `parseInt` are irrelevant here. -/
def jsParseInt (s : String) : Option Nat :=
  let ds := s.data.takeWhile Char.isDigit
  if ds.isEmpty then none
  else some (ds.foldl (fun n c => n * 10 + (c.toNat - 48)) 0)

/-- What the `callback_query` handler did. -/
inductive CallbackOutcome
  | noData
  | needVerified
  | courseView (courseId : Nat)
  | courseNotFound
  | subcontentView (subcontentId : Nat)
  | subcontentNotFound
  | menuSent
  | noMatch
  | caughtError
deriving DecidableEq, Repr

/-- The `bot.on('callback_query')` handler of part_006 (lines 373–499).
Note: this handler performs no rate-limit call in the source.  A `course_` /
`subcontent_` selector whose numeric part does not parse yields a `NaN`
storage lookup, which misses. -/
def handleCallback (env : BotEnv) (data : Option String) : CallbackOutcome :=
  match data with
  | none => .noData
  | some data =>
    match env.getUserByTelegramId with
    | .error _ => .caughtError
    | .ok none => .needVerified
    | .ok (some user) =>
      if !user.isVerified || user.isBanned then .needVerified
      else if jsStartsWith data "course_" then
        match jsParseInt (String.mk (data.data.drop 7)) with
        | none => .courseNotFound
        | some courseId =>
          match env.getCourse courseId with
          | none => .courseNotFound
          | some course => .courseView course.id
      else if jsStartsWith data "subcontent_" then
        match jsParseInt (String.mk (data.data.drop 11)) with
        | none => .subcontentNotFound
        | some subcontentId =>
          match env.getCourseSubcontent subcontentId with
          | none => .subcontentNotFound
          | some subcontent => .subcontentView subcontent.id
      else if data = "courses_menu" then .menuSent
      else .noMatch

/-! ## Rate Limiter — `src/server/middlewares/rateLimiter.ts`

Modelled from the spec: the token-bucket implementation
(`RateLimiterMemory` of the `rate-limiter-flexible` package) is an external
dependency whose code is not in the repository.  Per the spec's token-bucket
contract, a bucket has a fixed capacity and refill window; `consume` takes
one point and rejects without blocking, queueing, or consuming when the
bucket is empty.  The `points`/`duration` values are the repository's
configuration of `telegramLimiter`.  A bucket value is the per-key state of
one identity (buckets are created full on first reference to a key). -/

/-- Per-key token-bucket state: configured capacity (`points`), refill
window in seconds (`duration`), and remaining points before the next refill
tick. -/
structure Bucket where
  points : Nat
  duration : Nat
  remaining : Nat
deriving DecidableEq, Repr

/-- `consume(key)` on a bucket, before any refill tick: succeed and take one
point when any remain, otherwise reject leaving the bucket unchanged. -/
def Bucket.tryConsume (b : Bucket) : Bool × Bucket :=
  if 0 < b.remaining then (true, { b with remaining := b.remaining - 1 })
  else (false, b)

/-- `telegramLimiter = new RateLimiterMemory({ points: 20, duration: 60 })`,
as the full bucket a fresh key starts from. -/
def telegramLimiter : Bucket :=
  { points := 20, duration := 60, remaining := 20 }

/-- `telegramRateLimit(telegramId)`: `true` when the consume succeeded,
`false` when it rejected (the `catch` branch). -/
def telegramRateLimit (b : Bucket) : Bool × Bucket :=
  b.tryConsume

/-- Iterate `telegramRateLimit`, returning the list of results. -/
def consumeList : Nat → Bucket → List Bool × Bucket
  | 0, b => ([], b)
  | n + 1, b =>
    let (r, b1) := telegramRateLimit b
    let (rs, b2) := consumeList n b1
    (r :: rs, b2)

/-! ## Event dispatch: which handlers consult the rate limiter

In part_006 only the `/start` handler (line 170) and the free-text message
handler (line 260) call `telegramRateLimit`; `/help`, `/courses` and the
`callback_query` handler do not.  `dispatch` routes one inbound event for a
chat identity through exactly the rate-limit calls the source makes. -/

/-- One inbound Telegram event for a chat. -/
inductive BotEvent
  | startCmd
  | helpCmd
  | coursesCmd
  | textMsg (text : String)
  | callbackQuery (data : String)
deriving DecidableEq, Repr

/-- The visible result of dispatching one event. -/
inductive DispatchResult
  | slowDownNotice
  | startHandled (out : StartOut)
  | helpHandled
  | coursesHandled (out : CoursesOutcome)
  | messageIgnored
  | messageHandled (out : MsgOut)
  | callbackHandled (out : CallbackOutcome)
deriving DecidableEq, Repr

/-- Dispatch one inbound event, threading the chat's rate-limit bucket.
The message handler's missing-text/command early return precedes its
rate-limit call, exactly as in the source. -/
def dispatch (env : BotEnv) (telegramId : String) (bucket : Bucket)
    (sess : Option UserState) : BotEvent → Bucket × DispatchResult
  | .startCmd =>
    let (ok, b) := telegramRateLimit bucket
    if !ok then (b, .slowDownNotice)
    else (b, .startHandled (handleStart env.getUserByTelegramId true sess))
  | .helpCmd => (bucket, .helpHandled)
  | .coursesCmd => (bucket, .coursesHandled (handleCourses env.getUserByTelegramId))
  | .textMsg text =>
    if jsStartsWith text "/" then (bucket, .messageIgnored)
    else
      let (ok, b) := telegramRateLimit bucket
      if !ok then (b, .slowDownNotice)
      else (b, .messageHandled (handleMessage env telegramId (some text) true sess))
  | .callbackQuery data => (bucket, .callbackHandled (handleCallback env (some data)))

/-! ## Bot Connection lifecycle — part_006 lines 24–123

`initTelegramBot` reads the module-level `botInstance`; if it is already
set it returns it immediately (lines 67–70).  Only when it is `null` does it
read the Telegram configuration (database, then environment fallback) and
construct a new polling connection.  The "stop any previous polling" block
(lines 73–83) sits inside the `botInstance === null` path and is therefore
unreachable.  Nothing in the module ever sets `botInstance` back to `null`
or stops polling on a constructed connection. -/

/-- A constructed `TelegramBot` connection: the token it was built from and
whether it is polling (receiving). -/
structure Conn where
  token : String
  polling : Bool
deriving DecidableEq, Repr

/-- Module state of part_006 plus the credential sources: the `botInstance`
variable, `getTelegramConfig()`'s token (`none` = no configuration row; the
stored token may be the empty string, which the source treats as missing),
and the `TELEGRAM_BOT_TOKEN`/`BOT_TOKEN` environment fallback. -/
structure BotSys where
  botInstance : Option Conn
  dbBotToken : Option String
  envToken : Option String
deriving DecidableEq, Repr

/-- `initTelegramBot` (part_006 lines 66–123): returns the updated module
state and the bot it yields (`none` models returning `null`). -/
def initTelegramBot (s : BotSys) : BotSys × Option Conn :=
  match s.botInstance with
  | some existing => (s, some existing)
  | none =>
    match s.dbBotToken with
    | none =>
      match s.envToken with
      | none => (s, none)
      | some t =>
        let c : Conn := ⟨t, true⟩
        ({ s with botInstance := some c }, some c)
    | some t =>
      if t = "" then (s, none)
      else
        let c : Conn := ⟨t, true⟩
        ({ s with botInstance := some c }, some c)

/-- The body of `bootstrapTelegramBot` once it holds the `isInitializing`
guard: initialize configurations, run `initTelegramBot`, and report success
exactly when a bot was obtained (the source logs "bootstrapped successfully"
iff `initTelegramBot` returned non-null). -/
def bootstrapSucceeded (s : BotSys) : BotSys × Bool :=
  let (s1, bot) := initTelegramBot s
  (s1, bot.isSome)

/-! ## Concurrent `bootstrapTelegramBot` (C9)

An interleaving model of two concurrent `bootstrapTelegramBot()` calls.
Each invocation is the following sequence of atomic steps, with an `await`
(scheduling point) between consecutive ones; the `isInitializing`
check-and-set is atomic because the source has no `await` between the check
(line 32) and the assignment (line 37):

* `start`   — if `isInitializing` then log and return (`doneNoop`),
              else set `isInitializing := true`;
* `inCfg`   — `await initializeApiConfigurations()` (no core-state change);
* `inChk`   — the `botInstance` check of `initTelegramBot`: skip to the
              `finally` if an instance exists;
* `inCreate`— read credentials; if a token is available construct a polling
              connection and publish it in `botInstance`;
* `inFin`   — the `finally`: clear `isInitializing` (`doneCS`). -/

/-- Program counter of one `bootstrapTelegramBot` invocation. -/
inductive PC
  | start
  | inCfg
  | inChk
  | inCreate
  | inFin
  | doneNoop
  | doneCS
deriving DecidableEq, Repr

/-- Shared state: the `isInitializing` flag, whether `botInstance` is set,
the number of constructed polling connections (none is ever stopped in
reachable code), and whether a bot token is available from the database or
the environment. -/
structure CState where
  flag : Bool
  inst : Bool
  live : Nat
  tok : Bool
deriving DecidableEq, Repr

/-- A configuration: the two invocations' program counters and the shared
state. -/
structure Cfg where
  pc1 : PC
  pc2 : PC
  st : CState
deriving DecidableEq, Repr

/-- One atomic step of a single invocation. -/
def stepThread (s : CState) : PC → CState × PC
  | .start =>
    if s.flag then (s, .doneNoop)
    else ({ s with flag := true }, .inCfg)
  | .inCfg => (s, .inChk)
  | .inChk => if s.inst then (s, .inFin) else (s, .inCreate)
  | .inCreate =>
    if s.tok then ({ s with inst := true, live := s.live + 1 }, .inFin)
    else (s, .inFin)
  | .inFin => ({ s with flag := false }, .doneCS)
  | .doneNoop => (s, .doneNoop)
  | .doneCS => (s, .doneCS)

/-- Scheduler step: `true` advances invocation 1, `false` invocation 2. -/
def step (c : Cfg) (w : Bool) : Cfg :=
  if w then
    let r := stepThread c.st c.pc1
    ⟨r.2, c.pc2, r.1⟩
  else
    let r := stepThread c.st c.pc2
    ⟨c.pc1, r.2, r.1⟩

/-- Run a schedule of interleaved steps. -/
def run (c : Cfg) : List Bool → Cfg
  | [] => c
  | w :: ws => run (step c w) ws

/-- The invocation holds the `isInitializing` guard. -/
def inCS : PC → Bool
  | .inCfg | .inChk | .inCreate | .inFin => true
  | _ => false

/-- The invocation has returned. -/
def isDone : PC → Bool
  | .doneNoop | .doneCS => true
  | _ => false

/-- Both invocations start at `start` with the flag clear, no instance and
no constructed connection; `tok` says whether a token is available. -/
def init9 (tok : Bool) : Cfg :=
  ⟨.start, .start, ⟨false, false, 0, tok⟩⟩

/-- Inductive invariant of the two-invocation system started from
`init9 tok`: the flag mirrors guard ownership, the guard is mutually
exclusive, a thread about to create has seen `botInstance` empty, the
number of constructed connections is 0 or 1 according to `botInstance`,
a thread that reached the `finally` with a token available has published an
instance, and a thread that no-opped saw the other one inside the guard. -/
def SysInv (c : Cfg) : Prop :=
  (c.st.flag = (inCS c.pc1 || inCS c.pc2))
  ∧ ((inCS c.pc1 && inCS c.pc2) = false)
  ∧ (c.pc1 = .inCreate → c.st.inst = false)
  ∧ (c.pc2 = .inCreate → c.st.inst = false)
  ∧ (c.st.inst = false → c.st.live = 0)
  ∧ (c.st.inst = true → c.st.live = 1)
  ∧ (c.st.tok = true → (c.pc1 = .inFin ∨ c.pc1 = .doneCS) → c.st.inst = true)
  ∧ (c.st.tok = true → (c.pc2 = .inFin ∨ c.pc2 = .doneCS) → c.st.inst = true)
  ∧ (c.pc1 = .doneNoop → (inCS c.pc2 = true ∨ c.pc2 = .doneCS))
  ∧ (c.pc2 = .doneNoop → (inCS c.pc1 = true ∨ c.pc1 = .doneCS))

/-- The invariant holds initially. -/
theorem inv_init (tok : Bool) : SysInv (init9 tok) := by
  cases tok <;> simp [SysInv, init9, inCS]

set_option maxHeartbeats 3200000 in
/-- The invariant is preserved by every scheduler step. -/
theorem inv_step (c : Cfg) (w : Bool) (h : SysInv c) : SysInv (step c w) := by
  obtain ⟨pc1, pc2, flag, inst, live, tok⟩ := c
  cases w <;> cases pc1 <;> cases pc2 <;>
    cases flag <;> cases inst <;> cases tok <;>
    simp_all [SysInv, step, stepThread, inCS]

/-- The invariant holds after any schedule. -/
theorem inv_run (c : Cfg) (h : SysInv c) : ∀ sched : List Bool, SysInv (run c sched)
  | [] => h
  | w :: ws => inv_run (step c w) (inv_step c w h) ws

/-- From the invariant: there is never more than one constructed polling
connection. -/
theorem sysInv_live_le_one (c : Cfg) (h : SysInv c) : c.st.live ≤ 1 := by
  obtain ⟨-, -, -, -, h5, h6, -⟩ := h
  cases hi : c.st.inst
  · simp [h5 hi]
  · simp [h6 hi]

/-- From the invariant: once both invocations have returned and a token was
available, exactly one connection is live. -/
theorem sysInv_done_live (c : Cfg) (h : SysInv c) (htok : c.st.tok = true)
    (h1 : isDone c.pc1 = true) (h2 : isDone c.pc2 = true) : c.st.live = 1 := by
  obtain ⟨-, -, -, -, -, h6, h7, h8, h9, h10⟩ := h
  have hinst : c.st.inst = true := by
    cases hp1 : c.pc1 <;> simp [hp1, isDone] at h1
    · rcases h9 hp1 with hcs | hcs
      · cases hp2 : c.pc2 <;> simp_all [inCS, isDone]
      · exact h8 htok (Or.inr hcs)
    · exact h7 htok (by simp [hp1])
  exact h6 hinst

/-- A scheduler step never changes token availability. -/
theorem step_tok (c : Cfg) (w : Bool) : (step c w).st.tok = c.st.tok := by
  obtain ⟨pc1, pc2, ⟨flag, inst, live, tok⟩⟩ := c
  cases w <;> cases pc1 <;> cases pc2 <;> simp [step, stepThread] <;> split <;> rfl

/-- Token availability is constant along any schedule. -/
theorem run_tok (c : Cfg) : ∀ sched : List Bool, (run c sched).st.tok = c.st.tok
  | [] => rfl
  | w :: ws => (run_tok (step c w) ws).trans (step_tok c w)

/-! ## Claim C9 -/

/-- C9 (amended): two concurrent `bootstrapTelegramBot()` invocations never
produce two live connections — under every interleaving at most one
connection exists, and when a bot token is available and both invocations
have returned, exactly one connection is live; moreover an invocation that
finds `isInitializing` already set returns immediately (no-ops) without
touching the shared state.  (The original claim's "never zero" fails when no
token is available — see the counterexample.) -/
theorem concurrent_rebuild_safety (sched : List Bool) :
    (run (init9 true) sched).st.live ≤ 1
    ∧ (isDone (run (init9 true) sched).pc1 = true →
        isDone (run (init9 true) sched).pc2 = true →
        (run (init9 true) sched).st.live = 1)
    ∧ (∀ c : Cfg, c.pc1 = PC.start → c.st.flag = true →
        step c true = { c with pc1 := PC.doneNoop }) := by
  have h := inv_run (init9 true) (inv_init true) sched
  have htok : (run (init9 true) sched).st.tok = true := by
    rw [run_tok]
    rfl
  refine ⟨sysInv_live_le_one _ h, fun h1 h2 => sysInv_done_live _ h htok h1 h2, ?_⟩
  intro c hpc hflag
  obtain ⟨pc1, pc2, st⟩ := c
  cases hpc
  simp only [step, stepThread] at hflag ⊢
  simp_all

/-- Witness for C9: a concrete complete interleaving (invocation 1 runs its
five steps, then invocation 2 its four) ends with both returned and exactly
one live connection, and a concrete configuration where invocation 2 holds
the guard makes invocation 1 no-op. -/
theorem concurrent_rebuild_safety_witness :
    isDone (run (init9 true)
      [true, true, true, true, true, false, false, false, false]).pc1 = true
    ∧ isDone (run (init9 true)
      [true, true, true, true, true, false, false, false, false]).pc2 = true
    ∧ (run (init9 true)
      [true, true, true, true, true, false, false, false, false]).st.live = 1
    ∧ step ⟨PC.start, PC.inCfg, ⟨true, false, 0, true⟩⟩ true
        = { (⟨PC.start, PC.inCfg, ⟨true, false, 0, true⟩⟩ : Cfg) with pc1 := PC.doneNoop } :=
  ⟨by decide, by decide,
   (concurrent_rebuild_safety
      [true, true, true, true, true, false, false, false, false]).2.1
     (by decide) (by decide),
   (concurrent_rebuild_safety []).2.2
     ⟨PC.start, PC.inCfg, ⟨true, false, 0, true⟩⟩ rfl rfl⟩

/-- Counterexample to C9 as stated: with no bot token available (no database
configuration and no environment fallback), both concurrent invocations run
to completion and zero live connections exist afterwards — the claim's
"never zero" fails. -/
theorem concurrent_rebuild_zero_connections_counterexample :
    isDone (run (init9 false)
      [true, true, true, true, true, false, false, false, false, false]).pc1 = true
    ∧ isDone (run (init9 false)
      [true, true, true, true, true, false, false, false, false, false]).pc2 = true
    ∧ (run (init9 false)
      [true, true, true, true, true, false, false, false, false, false]).st.live = 0 := by
  decide

/-! ## Claim C2 -/

/-- C2 (code bug): with a live connection built from token `"oldToken"` and
the database configuration now holding `"newToken"`, the
`bootstrapTelegramBot` body reports success, yet the module state is
entirely unchanged: the returned connection is still the one built from
`"oldToken"`, it is still polling, and no connection is constructed from the
current credentials — the early return at part_006 line 68 makes the
stop-and-recreate block (lines 73–83) unreachable. -/
theorem rebuild_keeps_stale_connection_bug :
    bootstrapSucceeded ⟨some ⟨"oldToken", true⟩, some "newToken", none⟩
      = (⟨some ⟨"oldToken", true⟩, some "newToken", none⟩, true)
    ∧ initTelegramBot ⟨some ⟨"oldToken", true⟩, some "newToken", none⟩
      = (⟨some ⟨"oldToken", true⟩, some "newToken", none⟩, some ⟨"oldToken", true⟩)
    ∧ ("oldToken" : String) ≠ "newToken" := by
  refine ⟨rfl, rfl, ?_⟩
  decide

/-! ## Claim C4 -/

/-- Counterexample to C4 as stated: with an order on file whose billing
email is the empty string and whose status is `completed`, calling
`verifyOrderPayment "9001" ""` returns `false` even though the lookup yields
an order whose billing email equals the supplied email and whose status is
`completed` — the `!orderId || !email` guard (JavaScript falsiness of the
empty string) rejects before any comparison, so the claimed "true if and
only if" fails. -/
theorem verifyOrderPayment_empty_email_counterexample :
    verifyOrderPayment (.ok (some ⟨"completed", ""⟩)) "9001" "" = false
    ∧ getOrderEmail ⟨"completed", ""⟩ = ""
    ∧ isOrderPaid ⟨"completed", ""⟩ = true := by
  decide

/-- C4 (amended): `verifyOrderPayment(orderId, email)` returns `true` iff
the order id and email are both non-empty and the lookup yields an order
whose billing email equals the supplied email after lowercasing and whose
status is `completed` or `processing`; in every other case — empty order id
or email, order not found, email mismatch, unpaid status, or the lookup
throwing — it returns `false`; the function is total (its `catch` turns any
throw into `false`), so the engine never advances state on an ambiguous
failure. -/
theorem verifyOrderPayment_true_iff (lookup : Except Unit (Option OrderData))
    (oid em : String) :
    (verifyOrderPayment lookup oid em = true ↔
      (oid ≠ "" ∧ em ≠ "" ∧ ∃ order, lookup = .ok (some order) ∧
        jsToLower (getOrderEmail order) = jsToLower em ∧ isOrderPaid order = true))
    ∧ verifyOrderPayment (.error ()) oid em = false := by
  constructor
  · unfold verifyOrderPayment
    rcases lookup with e | o
    · simp
    · rcases o with _ | order
      · simp
      · rcases Decidable.em (oid = "") with hoid | hoid <;>
          rcases Decidable.em (em = "") with hem | hem <;>
          rcases Decidable.em (jsToLower (getOrderEmail order) = jsToLower em)
            with he | he <;>
          rcases Decidable.em (isOrderPaid order = true) with hp | hp <;>
          simp_all
  · simp [verifyOrderPayment]

/-! ## Claim C10 -/

/-- Lowercasing preserves emptiness. -/
theorem jsToLower_eq_empty {s : String} (h : jsToLower s = "") : s = "" := by
  obtain ⟨data⟩ := s
  have h2 : List.map Char.toLower data = [] := congrArg String.data h
  rw [List.map_eq_nil_iff] at h2
  rw [h2]

/-- C10: the order-verification email comparison is case-insensitive — for
any lookup result and order id, two supplied emails with the same
lowercasing (in particular, emails differing only in letter case) give the
same `verifyOrderPayment` result. -/
theorem verifyOrderPayment_case_insensitive
    (lookup : Except Unit (Option OrderData)) (oid e1 e2 : String)
    (h : jsToLower e1 = jsToLower e2) :
    verifyOrderPayment lookup oid e1 = verifyOrderPayment lookup oid e2 := by
  have h0 : (e1 = "") = (e2 = "") := by
    apply propext
    constructor
    · intro he
      apply jsToLower_eq_empty
      rw [← h, he]
      rfl
    · intro he
      apply jsToLower_eq_empty
      rw [h, he]
      rfl
  simp only [verifyOrderPayment, h, h0]

/-- Witness for C10: `"A@B.com"` and `"a@b.COM"` differ only in letter case
and verify identically against a completed order billed to `a@b.com`. -/
theorem verifyOrderPayment_case_insensitive_witness :
    jsToLower "A@B.com" = jsToLower "a@b.COM"
    ∧ verifyOrderPayment (.ok (some ⟨"completed", "a@b.com"⟩)) "9001" "A@B.com"
      = verifyOrderPayment (.ok (some ⟨"completed", "a@b.com"⟩)) "9001" "a@b.COM" :=
  ⟨by decide, verifyOrderPayment_case_insensitive _ _ _ _ (by decide)⟩

/-! ## Claim C8 -/

/-- C8: the Telegram-path bucket is configured with capacity 20 per
60-second window and a fresh key starts full; from a full bucket exactly 20
consecutive `telegramRateLimit` (`tryConsume`) calls return `true` and the
21st returns `false`, before any refill tick; and a denied call returns
`false` immediately, leaving the bucket unchanged (no blocking, no
queueing). -/
theorem telegramLimiter_boundary :
    (consumeList 21 telegramLimiter).1 = List.replicate 20 true ++ [false]
    ∧ telegramLimiter.points = 20
    ∧ telegramLimiter.duration = 60
    ∧ telegramLimiter.remaining = telegramLimiter.points
    ∧ (∀ b : Bucket, b.remaining = 0 → b.tryConsume = (false, b)) := by
  refine ⟨by decide, rfl, rfl, rfl, ?_⟩
  intro b hb
  simp [Bucket.tryConsume, hb]

/-- Witness for C8: the empty Telegram-path bucket denies a consume and is
left unchanged. -/
theorem telegramLimiter_boundary_witness :
    (⟨20, 60, 0⟩ : Bucket).remaining = 0
    ∧ Bucket.tryConsume ⟨20, 60, 0⟩ = (false, ⟨20, 60, 0⟩) :=
  ⟨rfl, telegramLimiter_boundary.2.2.2.2 ⟨20, 60, 0⟩ rfl⟩

/-! ## Claim C1 -/

/-- Environment realising C1's failing input: the chat `"555"` has an
unverified stored record with id 7, the oracle confirms payment for any
order, and `updateUser` returns `undefined` (no row persisted, e.g. the
record vanished between the read and the write). -/
def c1Env : BotEnv :=
  { getUserByEmail := fun _ => .ok none
    getUserByTelegramId := .ok (some ⟨7, "555", "a@b.com", false, false⟩)
    verifyOrder := fun _ _ => true
    updateUser := fun _ => .ok none
    createUser := .error ()
    getCourse := fun _ => none
    getCourseSubcontent := fun _ => none }

/-- C1 (code bug): in step `ORDER_ID` with `pendingEmail` set, the oracle
confirms payment for order `"9001"` but the record-store write persists
nothing (`updateUser` returns `undefined`); the source logs "Failed to
update user" yet still deletes the session entry and reports verification
success (part_006 lines 329–354), so "success reported iff the write
persisted a verified record" fails and the session does not stay in
`AwaitingOrderId`. -/
theorem verified_write_failure_reports_success_bug :
    c1Env.verifyOrder "9001" "a@b.com" = true
    ∧ c1Env.updateUser 7 = .ok none
    ∧ handleMessage c1Env "555" (some "9001") true (some ⟨.ORDER_ID, some "a@b.com"⟩)
      = ⟨none, .verifiedSuccess false⟩ := by
  refine ⟨rfl, rfl, by decide⟩

/-! ## Claim C7 -/

/-- The message-handler outcomes that reject a free-text input: invalid
email shape, email claimed by another chat identity, non-numeric order id,
and an oracle reject/failure (`verifyOrderPayment` returning `false`). -/
def isRejection : Outcome → Bool
  | .invalidEmail | .duplicateEmail | .invalidOrderId | .verifyRejected => true
  | _ => false

/-- Structural case split: a message event either leaves the chat's session
entry unchanged, or it is the email-acceptance write, or it is the
verification-success path. -/
theorem handleMessage_sess_cases (env : BotEnv) (tid raw : String)
    (allowed : Bool) (sess : Option UserState) :
    (handleMessage env tid (some raw) allowed sess).sess = sess
    ∨ (handleMessage env tid (some raw) allowed sess).outcome = .emailAccepted
    ∨ ∃ b, (handleMessage env tid (some raw) allowed sess).outcome
        = .verifiedSuccess b := by
  unfold handleMessage
  repeat' split
  all_goals try simp
  all_goals repeat' split
  all_goals try simp
  all_goals first
    | (simp; done)
    | (simp only [Option.isSome_iff_exists]
       exact Option.eq_none_or_eq_some _)

/-- C7: whenever the free-text message handler rejects the input — invalid
email shape, duplicate email, invalid order id, or oracle reject/failure —
the session entry for the chat after the event equals the entry before it
(same step, same pending email). -/
theorem rejected_input_preserves_session (env : BotEnv) (tid raw : String)
    (allowed : Bool) (sess : Option UserState)
    (h : isRejection (handleMessage env tid (some raw) allowed sess).outcome = true) :
    (handleMessage env tid (some raw) allowed sess).sess = sess := by
  rcases handleMessage_sess_cases env tid raw allowed sess with hs | ho | ⟨b, ho⟩
  · exact hs
  · rw [ho] at h
    simp [isRejection] at h
  · rw [ho] at h
    simp [isRejection] at h

/-- Witness for C7: an invalid email in step `EMAIL` is rejected and leaves
the session entry unchanged. -/
theorem rejected_input_preserves_session_witness :
    isRejection (handleMessage c1Env "555" (some "notanemail") true
      (some ⟨.EMAIL, none⟩)).outcome = true
    ∧ (handleMessage c1Env "555" (some "notanemail") true
      (some ⟨.EMAIL, none⟩)).sess = some ⟨.EMAIL, none⟩ :=
  ⟨by decide,
   rejected_input_preserves_session c1Env "555" "notanemail" true
     (some ⟨.EMAIL, none⟩) (by decide)⟩

/-! ## Claim C3 -/

/-- C3: in step `EMAIL`, a syntactically valid (sanitized) email is rejected
with the session unchanged — still `EMAIL`, same pending email — exactly
when the stored-records lookup finds that email under a different chat
identity; otherwise (email unused, or used by this same chat identity) the
session moves to `ORDER_ID` carrying the sanitized email. -/
theorem email_acceptance_iff_not_claimed (env : BotEnv) (tid raw : String)
    (pe : Option String) (r : Option UserRec)
    (hcmd : jsStartsWith raw "/" = false)
    (hvalid : isValidEmail (sanitizeString (jsTrim raw)) = true)
    (henv : env.getUserByEmail (sanitizeString (jsTrim raw)) = .ok r) :
    (handleMessage env tid (some raw) true (some ⟨.EMAIL, pe⟩)
        = ⟨some ⟨.EMAIL, pe⟩, .duplicateEmail⟩
      ↔ ∃ u, r = some u ∧ u.telegramId ≠ tid)
    ∧ (handleMessage env tid (some raw) true (some ⟨.EMAIL, pe⟩)
        = ⟨some ⟨.ORDER_ID, some (sanitizeString (jsTrim raw))⟩, .emailAccepted⟩
      ↔ ∀ u, r = some u → u.telegramId = tid) := by
  rcases r with _ | u
  · simp [handleMessage, hcmd, hvalid, henv]
  · rcases Decidable.em (u.telegramId = tid) with ht | ht <;>
      simp [handleMessage, hcmd, hvalid, henv, ht]

/-- Environment for the C3 witness: the email `a@b.com` is already stored
for chat identity `"999"`. -/
def c3Env : BotEnv :=
  { getUserByEmail := fun _ => .ok (some ⟨3, "999", "a@b.com", false, false⟩)
    getUserByTelegramId := .ok none
    verifyOrder := fun _ _ => false
    updateUser := fun _ => .ok none
    createUser := .error ()
    getCourse := fun _ => none
    getCourseSubcontent := fun _ => none }

/-- Witness for C3: chat `"555"` submits `" a@b.com "`, which sanitizes to
the valid email `a@b.com` already held by chat `"999"`; the handler rejects
it and the session entry is unchanged in step `EMAIL`. -/
theorem email_acceptance_iff_not_claimed_witness :
    handleMessage c3Env "555" (some " a@b.com ") true (some ⟨.EMAIL, none⟩)
      = ⟨some ⟨.EMAIL, none⟩, .duplicateEmail⟩
    ∧ isValidEmail (sanitizeString (jsTrim " a@b.com ")) = true :=
  ⟨(email_acceptance_iff_not_claimed c3Env "555" " a@b.com " none
      (some ⟨3, "999", "a@b.com", false, false⟩)
      (by decide) (by decide) rfl).1.mpr
    ⟨⟨3, "999", "a@b.com", false, false⟩, rfl, by decide⟩,
   by decide⟩

/-! ## Claim C5 -/

/-- C5: the session entry produced by `/start` is a function of the stored
user record for the chat identity — no record enters `EMAIL`; an unverified,
unbanned record jumps to `ORDER_ID` with the stored email pre-filled; a
banned or verified record leaves the session entry untouched; and re-issuing
`/start` against the same record is idempotent on the session entry. -/
theorem start_session_function_of_record (r : Option UserRec)
    (sess : Option UserState) :
    (r = none →
      handleStart (.ok r) true sess = ⟨some ⟨.EMAIL, none⟩, .newUser⟩)
    ∧ (∀ u, r = some u → u.isBanned = false → u.isVerified = false →
      handleStart (.ok r) true sess
        = ⟨some ⟨.ORDER_ID, some u.email⟩, .resumeOrderId⟩)
    ∧ (∀ u, r = some u → (u.isBanned = true ∨ u.isVerified = true) →
      (handleStart (.ok r) true sess).sess = sess)
    ∧ (handleStart (.ok r) true ((handleStart (.ok r) true sess).sess)).sess
      = (handleStart (.ok r) true sess).sess := by
  rcases r with _ | u
  · simp [handleStart]
  · rcases hb : u.isBanned <;> rcases hv : u.isVerified <;>
      simp [handleStart, hb, hv]

/-- Witness for C5 (the spec's chat-777 scenario): an unverified, unbanned
record with email `x@y.com` makes `/start` jump straight to `ORDER_ID` with
that email pre-filled. -/
theorem start_session_function_of_record_witness :
    handleStart (.ok (some ⟨2, "777", "x@y.com", false, false⟩)) true none
      = ⟨some ⟨.ORDER_ID, some "x@y.com"⟩, .resumeOrderId⟩ :=
  (start_session_function_of_record
      (some ⟨2, "777", "x@y.com", false, false⟩) none).2.1
    ⟨2, "777", "x@y.com", false, false⟩ rfl rfl rfl

/-! ## Claim C6 -/

/-- An exhausted Telegram-path bucket. -/
def emptyBucket : Bucket :=
  { points := 20, duration := 60, remaining := 0 }

/-- Environment for C6: chat `"555"` has a verified, unbanned record. -/
def c6Env : BotEnv :=
  { getUserByEmail := fun _ => .ok none
    getUserByTelegramId := .ok (some ⟨5, "555", "a@b.com", true, false⟩)
    verifyOrder := fun _ _ => false
    updateUser := fun _ => .ok none
    createUser := .error ()
    getCourse := fun _ => none
    getCourseSubcontent := fun _ => none }

/-- Counterexample to C6 as stated: a `/courses` event arriving while the
chat's bucket is empty is fully processed — the stored user is looked up and
the course menu is sent — without consuming a token and without the
slow-down notice, because the `/courses` handler (part_006 lines 222–249)
performs no `telegramRateLimit` call. -/
theorem courses_bypasses_rate_limiter_counterexample :
    emptyBucket.remaining = 0
    ∧ dispatch c6Env "555" emptyBucket none .coursesCmd
      = (emptyBucket, .coursesHandled .menuSent) :=
  ⟨rfl, rfl⟩

/-- C6 (amended): only the `/start` command and non-command free-text
messages pass through the rate limiter — with an empty bucket they stop at
the fixed slow-down notice, leaving the bucket unchanged — while `/help`,
`/courses` and callback-query events are dispatched to their handlers
without consuming a token, regardless of the bucket's state. -/
theorem dispatch_rate_limit_coverage (env : BotEnv) (tid : String)
    (bucket : Bucket) (sess : Option UserState) (t d : String)
    (hb : bucket.remaining = 0)
    (ht : jsStartsWith t "/" = false) :
    dispatch env tid bucket sess .startCmd = (bucket, .slowDownNotice)
    ∧ dispatch env tid bucket sess (.textMsg t) = (bucket, .slowDownNotice)
    ∧ (dispatch env tid bucket sess .helpCmd).1 = bucket
    ∧ dispatch env tid bucket sess .coursesCmd
      = (bucket, .coursesHandled (handleCourses env.getUserByTelegramId))
    ∧ dispatch env tid bucket sess (.callbackQuery d)
      = (bucket, .callbackHandled (handleCallback env (some d))) := by
  simp [dispatch, telegramRateLimit, Bucket.tryConsume, hb, ht]

/-- Witness for C6 (amended): with the empty bucket, `/start` and a
free-text message stop at the slow-down notice. -/
theorem dispatch_rate_limit_coverage_witness :
    dispatch c6Env "555" emptyBucket none .startCmd
      = (emptyBucket, .slowDownNotice)
    ∧ dispatch c6Env "555" emptyBucket none (.textMsg "hello")
      = (emptyBucket, .slowDownNotice) :=
  ⟨(dispatch_rate_limit_coverage c6Env "555" emptyBucket none "hello" "x"
      rfl (by decide)).1,
   (dispatch_rate_limit_coverage c6Env "555" emptyBucket none "hello" "x"
      rfl (by decide)).2.1⟩
